import Mathlib

/-!
# Verification of the Canary camera/sensor adapter

Shallow embedding of `homeassistant/components/canary/camera.py` and
`homeassistant/components/canary/sensor.py`.

Conventions of the embedding:
* Python dictionaries become association lists, with `alookup` returning
  `Option` (a `KeyError` that the source catches becomes the `none` branch;
  an exception the source does *not* catch becomes an `Except.error`).
* The coordinator snapshot `coordinator.data` becomes the `Snapshot`
  structure; the adapters only read it.
* External collaborators (the httpx client, the ffmpeg helpers, the vendor
  live-stream session) are oracles passed in as function arguments; the
  control flow around them is translated from the source.
* Machine floats of readings are modelled as rationals; Python's
  `round(x, 2)` becomes `round_value` (round half to even at two decimals).
-/

namespace Canary

/-- `Thumbnail` of a captured entry (vendor model): carries an image URL. -/
structure Thumbnail where
  image_url : String
deriving DecidableEq

/-- A captured motion/video `Entry` (vendor model): identifier, start time
(as an abstract timestamp), ordered thumbnails. -/
structure Entry where
  entry_id : Nat
  start_time : Nat
  thumbnails : List Thumbnail
deriving DecidableEq

/-- The vendor SDK's `SensorType` enumeration (the members the adapter uses). -/
inductive SensorType where
  | AIR_QUALITY
  | TEMPERATURE
  | HUMIDITY
  | WIFI
  | BATTERY
  | DATE_LAST_ENTRY
  | ENTRIES_CAPTURED_TODAY
deriving DecidableEq

/-- A vendor `Reading`: metric kind plus numeric value. -/
structure Reading where
  sensor_type : SensorType
  value : ℚ
deriving DecidableEq

/-- A vendor `Device`. `device_type` models the device-type dictionary, of
which the adapter only reads the `"name"` field (the product-model name). -/
structure Device where
  device_id : Nat
  name : String
  is_online : Bool
  device_type : List (String × String)
deriving DecidableEq

/-- A vendor `Location` with its owned devices. -/
structure Location where
  name : String
  is_recording : Bool
  devices : List Device
deriving DecidableEq

/-- The coordinator's snapshot `coordinator.data`:
`{"locations": {...}, "entries": {...}, "readings": {...}}`. -/
structure Snapshot where
  locations : List (String × Location)
  entries : List (Nat × List Entry)
  readings : List (Nat × List Reading)
deriving DecidableEq

/-- Dictionary lookup: `d[k]` wrapped so a missing key is `none`
(the caller decides whether the `KeyError` was caught). -/
def alookup {κ α : Type} [DecidableEq κ] (k : κ) : List (κ × α) → Option α
  | [] => none
  | (k', v) :: t => if k = k' then some v else alookup k t

/-- Python exceptions that can escape the translated code. -/
inductive PyError where
  | keyError
  | indexError
deriving DecidableEq

/-- Mutable per-camera session state (`CanaryCamera.__init__`):
`_image`, `_last_event`, `_last_image_id`, `_image_url`,
`_live_stream_url`, plus the `Throttle` decorator's last-call time. -/
structure CameraState where
  image : Option (List Nat)
  lastEvent : Option Entry
  lastImageId : Option Nat
  imageUrl : Option String
  liveStreamUrl : Option String
  lastRenewTime : Option Nat
deriving DecidableEq

/-- Fresh camera state right after `__init__`. -/
def CameraState.init : CameraState :=
  { image := none, lastEvent := none, lastImageId := none
    imageUrl := none, liveStreamUrl := none, lastRenewTime := none }

/-- Python truthiness of an optional string (`if url:`): `None` and the
empty string are falsy. -/
def truthyStr : Option String → Bool
  | none => false
  | some s => !s.isEmpty

/-- Lines 198–204 of `camera.py`, reached whenever `_check_for_new_image`
did not return early: clear `_image` when `_last_image_id` differs from the
current entry's id, then set `_image_url` from the entry's first thumbnail
(`IndexError` on an empty thumbnail list is caught, yielding `None`).
`le` is the entry held in `_last_event` at that point. -/
def finishImageState (s : CameraState) (le : Entry) : CameraState :=
  let s2 := if s.lastImageId ≠ some le.entry_id then { s with image := none } else s
  { s2 with imageUrl :=
      match le.thumbnails with
      | [] => none
      | t :: _ => some t.image_url }

/-- `CanaryCamera._check_for_new_image` (camera.py lines 182–204).
Note: both `try` blocks catch only `KeyError`; the `[0]` subscript raises
an uncaught `IndexError` when the device's entry list is present but empty. -/
def check_for_new_image (snap : Snapshot) (device_id : Nat) (s : CameraState) :
    Except PyError CameraState :=
  match s.lastEvent with
  | none =>
    match alookup device_id snap.entries with
    | none => .ok s
    | some es =>
      match es with
      | [] => .error .indexError
      | e :: _ => .ok (finishImageState { s with lastEvent := some e } e)
  | some le =>
    match alookup device_id snap.entries with
    | none => .ok s
    | some es =>
      match es with
      | [] => .error .indexError
      | e :: _ =>
        if le.entry_id ≠ e.entry_id then
          .ok (finishImageState { s with lastEvent := some e } e)
        else
          .ok (finishImageState s le)

/-- Outcome of `async_client.get(url, timeout=10)` followed by
`raise_for_status()`: either the body bytes or one of the three caught
exception classes. -/
inductive FetchResult where
  | success (content : List Nat)
  | timeout
  | requestError
  | statusError
deriving DecidableEq

/-- Whether the fetch outcome is one of the caught error classes. -/
def FetchResult.isFailure : FetchResult → Bool
  | .success _ => false
  | .timeout => true
  | .requestError => true
  | .statusError => true

/-- Camera.py lines 141–158: the cached-thumbnail fetch step of
`async_camera_image`. Attempted only when `_image is None and url`;
on success stores the bytes and remembers the producing entry id;
on `TimeoutException` / `RequestError` / `HTTPStatusError` only logs. -/
def fetch_step (fetch : String → FetchResult) (s : CameraState) : CameraState :=
  match s.imageUrl with
  | none => s
  | some url =>
    if s.image = none ∧ url.isEmpty = false then
      match fetch url with
      | .success b =>
        { s with image := some b, lastImageId := s.lastEvent.map Entry.entry_id }
      | .timeout => s
      | .requestError => s
      | .statusError => s
    else s

/-- `MIN_TIME_BETWEEN_SESSION_RENEW = timedelta(seconds=90)`. -/
def MIN_TIME_BETWEEN_SESSION_RENEW : Nat := 90

/-- Modelled from the spec: the platform's `Throttle` decorator
(`homeassistant.util.Throttle`, not part of the adapter sources) is a
"time-since-last-call gate": a call within `minInterval` seconds of the
last executed call is a no-op; otherwise the wrapped body runs. -/
def throttled (minInterval now : Nat) (lastCall : Option Nat) : Bool :=
  match lastCall with
  | none => false
  | some t => now - t < minInterval

/-- `CanaryCamera.renew_live_stream_session` (camera.py lines 231–239) under
its `@Throttle(MIN_TIME_BETWEEN_SESSION_RENEW)` decorator. `sessionUrl` is
the `live_stream_url` of the vendor session the coordinator's client would
hand back; the returned flag records whether the wrapped body (the vendor
call) actually executed. -/
def renew_live_stream_session (sessionUrl : Option String) (now : Nat)
    (s : CameraState) : CameraState × Bool :=
  if throttled MIN_TIME_BETWEEN_SESSION_RENEW now s.lastRenewTime then (s, false)
  else ({ s with liveStreamUrl := sessionUrl, lastRenewTime := some now }, true)

/-- Camera.py lines 160–180: the live-view fallback of `async_camera_image`,
entered when `_image` is still `None` after the fetch step. Renews the
session (throttled), returns `None` when `_live_stream_url` is falsy, else
asks ffmpeg for a still (`liveImage`), storing it only when truthy. -/
def live_view_step (sessionUrl : Option String) (liveImage : String → Option (List Nat))
    (now : Nat) (s : CameraState) : Option (List Nat) × CameraState :=
  let s3 := (renew_live_stream_session sessionUrl now s).1
  if truthyStr s3.liveStreamUrl = false then (none, s3)
  else
    let s4 :=
      if s3.image = none then
        match s3.liveStreamUrl with
        | some url =>
          match liveImage url with
          | some b => if b.isEmpty then s3 else { s3 with image := some b }
          | none => s3
        | none => s3
      else s3
    (s4.image, s4)

/-- `CanaryCamera.async_camera_image` (camera.py lines 135–180): update the
image state, try the cached-thumbnail fetch, fall back to a live-view still,
return `self._image`. The result pairs the returned bytes with the final
session state; an uncaught exception from `_check_for_new_image` propagates. -/
def async_camera_image (snap : Snapshot) (device_id : Nat)
    (fetch : String → FetchResult) (sessionUrl : Option String)
    (liveImage : String → Option (List Nat)) (now : Nat) (s : CameraState) :
    Except PyError (Option (List Nat) × CameraState) :=
  match check_for_new_image snap device_id s with
  | .error e => .error e
  | .ok s1 =>
    let s2 := fetch_step fetch s1
    if s2.image = none then .ok (live_view_step sessionUrl liveImage now s2)
    else .ok (s2.image, s2)

/-- `CanaryCamera.handle_async_mjpeg_stream` (camera.py lines 206–229).
`openR` is the outcome of `stream.open_camera` (awaited before the `try`),
`proxy` the combined outcome of `get_reader` + `async_aiohttp_proxy_stream`
inside the `try` (a stream-response token or a raised error). The result
records `(handler outcome, state, process opened, process closed)`; the
`finally` clause makes `closed = true` on every path where the process was
opened. -/
def handle_async_mjpeg_stream (openR : Except PyError Unit)
    (proxy : Except PyError Nat) (sessionUrl : Option String) (now : Nat)
    (s : CameraState) : Except PyError (Option Nat) × CameraState × Bool × Bool :=
  let s3 := (renew_live_stream_session sessionUrl now s).1
  if truthyStr s3.liveStreamUrl = false then (.ok none, s3, false, false)
  else
    match openR with
    | .error e => (.error e, s3, false, false)
    | .ok _ =>
      match proxy with
      | .ok resp => (.ok (some resp), s3, true, true)
      | .error e => (.error e, s3, true, true)

/-! ## Sensor adapter (`sensor.py`) -/

/-- `SENSOR_VALUE_PRECISION = 2`. -/
def SENSOR_VALUE_PRECISION : Nat := 2

/-- `ATTR_AIR_QUALITY = "air_quality"`. -/
def ATTR_AIR_QUALITY : String := "air_quality"

/-- Product-model name constants (sensor.py lines 32–34). -/
def CANARY_PRO : String := "Canary Pro"

/-- See `CANARY_PRO`. -/
def CANARY_FLEX : String := "Canary Flex"

/-- See `CANARY_PRO`. -/
def CANARY_VIEW : String := "Canary View"

/-- One row of the `SENSOR_TYPES` table: `(sensor type name,
unit_of_measurement, icon, device class, products supported)`; fields mirror
the tuple indices `[0]`–`[4]`. -/
structure SensorTypeItem where
  type_name : String
  unit : Option String
  icon : Option String
  device_class : Option String
  models : List String
deriving DecidableEq

/-- Platform unit constant. -/
def TEMP_CELSIUS : String := "°C"

/-- Platform unit constant. -/
def PERCENTAGE : String := "%"

/-- Platform unit constant. -/
def SIGNAL_STRENGTH_DECIBELS_MILLIWATT : String := "dBm"

/-- The static `SENSOR_TYPES` table (sensor.py lines 38–64). Device classes
are modelled by their string names. -/
def SENSOR_TYPES : List SensorTypeItem :=
  [ ⟨"temperature", some TEMP_CELSIUS, none, some "temperature", [CANARY_PRO]⟩,
    ⟨"humidity", some PERCENTAGE, none, some "humidity", [CANARY_PRO]⟩,
    ⟨"air_quality", none, some "mdi:weather-windy", none, [CANARY_PRO]⟩,
    ⟨"wifi", some SIGNAL_STRENGTH_DECIBELS_MILLIWATT, none, some "signal_strength",
      [CANARY_PRO, CANARY_FLEX, CANARY_VIEW]⟩,
    ⟨"battery", some PERCENTAGE, none, some "battery", [CANARY_FLEX]⟩,
    ⟨"last_entry_date", none, some "mdi:run-fast", some "timestamp",
      [CANARY_PRO, CANARY_FLEX]⟩,
    ⟨"entries_captured_today", none, some "mdi:file-video", none,
      [CANARY_PRO, CANARY_FLEX, CANARY_VIEW]⟩ ]

/-- `STATE_AIR_QUALITY_NORMAL = "normal"`. -/
def STATE_AIR_QUALITY_NORMAL : String := "normal"

/-- `STATE_AIR_QUALITY_ABNORMAL = "abnormal"`. -/
def STATE_AIR_QUALITY_ABNORMAL : String := "abnormal"

/-- `STATE_AIR_QUALITY_VERY_ABNORMAL = "very_abnormal"`. -/
def STATE_AIR_QUALITY_VERY_ABNORMAL : String := "very_abnormal"

/-- The `_canary_type` assignment chain of `CanarySensor.__init__`
(sensor.py lines 114–136): sensor-type name to vendor `SensorType`. -/
def canary_sensor_type : String → Option SensorType
  | "air_quality" => some .AIR_QUALITY
  | "temperature" => some .TEMPERATURE
  | "humidity" => some .HUMIDITY
  | "wifi" => some .WIFI
  | "battery" => some .BATTERY
  | "last_entry_date" => some .DATE_LAST_ENTRY
  | "entries_captured_today" => some .ENTRIES_CAPTURED_TODAY
  | _ => none

/-- The `_canary_data_type` assignment chain of the same `__init__`:
`"reading"` for the five reading metrics, `"entry"` for the two
entry metrics. -/
def canary_data_type : String → Option String
  | "air_quality" => some "reading"
  | "temperature" => some "reading"
  | "humidity" => some "reading"
  | "wifi" => some "reading"
  | "battery" => some "reading"
  | "last_entry_date" => some "entry"
  | "entries_captured_today" => some "entry"
  | _ => none

/-- A constructed `CanarySensor`: the row of `SENSOR_TYPES` it was built
from and the device id (`_sensor_type`, `_device_id`). -/
structure CanarySensor where
  sensor_type : SensorTypeItem
  device_id : Nat
deriving DecidableEq

/-- Round the fraction `n / d` (with `d ≠ 0`) to the nearest integer, ties
to even — the behaviour of Python's built-in `round` — computed on
integers so the kernel can evaluate it: `f` is the floor, `r` the
nonnegative remainder, and `2 * r` is compared against `d`. -/
def roundHalfEvenInt (n : ℤ) (d : ℕ) : ℤ :=
  let f := n.fdiv d
  let r := n - f * d
  if 2 * r < (d : ℤ) then f
  else if (d : ℤ) < 2 * r then f + 1
  else if f % 2 = 0 then f else f + 1

/-- `round(float(value), SENSOR_VALUE_PRECISION)`: round to two decimal
places, i.e. round `q * 100` half-to-even and put the result over `100`. -/
def round_value (q : ℚ) : ℚ :=
  Rat.divInt (roundHalfEvenInt (q.num * ((10 ^ SENSOR_VALUE_PRECISION : ℕ) : ℤ)) q.den)
    ((10 ^ SENSOR_VALUE_PRECISION : ℕ) : ℤ)

/-- Kernel-computable comparison `a ≤ b` on `ℚ` (cross-multiplication;
denominators are positive). `ratLe_iff` below proves it is exactly `≤`. -/
def ratLe (a b : ℚ) : Bool := decide (a.num * (b.den : ℤ) ≤ b.num * (a.den : ℤ))

/-- `CanarySensor.reading` (sensor.py lines 151–171): the first reading of
the device whose `sensor_type` equals `_canary_type`, rounded; `None` on a
`KeyError` or when no reading matches. -/
def CanarySensor.reading (s : CanarySensor) (snap : Snapshot) : Option ℚ :=
  match alookup s.device_id snap.readings with
  | none => none
  | some readings =>
    match readings.find?
        (fun r => decide (canary_sensor_type s.sensor_type.type_name = some r.sensor_type)) with
    | none => none
    | some r => some (round_value r.value)

/-- The values `CanarySensor.native_value` can produce (float, int count,
datetime), tagged. -/
inductive NValue where
  | reading (q : ℚ)
  | count (n : Nat)
  | date (t : Nat)
deriving DecidableEq

/-- `CanarySensor.native_value` (sensor.py lines 173–194). -/
def CanarySensor.native_value (s : CanarySensor) (snap : Snapshot) : Option NValue :=
  if canary_data_type s.sensor_type.type_name = some "reading" then
    (s.reading snap).map NValue.reading
  else if canary_data_type s.sensor_type.type_name = some "entry" then
    match alookup s.device_id snap.entries with
    | none => none
    | some entry =>
      if s.sensor_type.type_name = "entries_captured_today" then
        some (.count entry.length)
      else if s.sensor_type.type_name = "last_entry_date" then
        match entry with
        | [] => none
        | e :: _ => some (.date e.start_time)
      else none
  else none

/-- `CanarySensor.extra_state_attributes` (sensor.py lines 196–212):
for the air-quality sensor with a present reading, the single-key
dictionary `{ATTR_AIR_QUALITY: band}`; otherwise `None`. -/
def CanarySensor.extra_state_attributes (s : CanarySensor) (snap : Snapshot) :
    Option (List (String × String)) :=
  let reading := s.reading snap
  if s.sensor_type.type_name = "air_quality" then
    match reading with
    | none => none
    | some r =>
      let air_quality :=
        if ratLe r (Rat.divInt 4 10) then STATE_AIR_QUALITY_VERY_ABNORMAL
        else if ratLe r (Rat.divInt 59 100) then STATE_AIR_QUALITY_ABNORMAL
        else STATE_AIR_QUALITY_NORMAL
      some [(ATTR_AIR_QUALITY, air_quality)]
  else none

/-! ## Platform setup (`async_setup_entry` of both modules) -/

/-- Inner loop of camera `async_setup_entry` (camera.py lines 71–81):
one `CanaryCamera` — modelled by its `(location_id, device)` arguments —
per online device of a location. -/
def camerasForDevices (location_id : String) : List Device → List (String × Device)
  | [] => []
  | d :: rest =>
    if d.is_online = true then (location_id, d) :: camerasForDevices location_id rest
    else camerasForDevices location_id rest

/-- Outer loop of camera `async_setup_entry` over
`coordinator.data["locations"].items()`. -/
def camerasForLocations : List (String × Location) → List (String × Device)
  | [] => []
  | (lid, loc) :: rest => camerasForDevices lid loc.devices ++ camerasForLocations rest

/-- Camera `async_setup_entry` (camera.py lines 56–83), as the list of
constructed camera entities. -/
def setup_cameras (snap : Snapshot) : List (String × Device) :=
  camerasForLocations snap.locations

/-- `device_type.get("name") in sensor_type[4]` (sensor.py line 87);
a missing `"name"` key gives `None`, which is never in the model list. -/
def supportsModel (d : Device) (st : SensorTypeItem) : Bool :=
  match alookup "name" d.device_type with
  | some n => st.models.contains n
  | none => false

/-- Innermost loop of sensor `async_setup_entry` (lines 86–90): one
`CanarySensor` per supported sensor type of one device. -/
def sensorsForDevice (loc : Location) (d : Device) :
    List SensorTypeItem → List (Location × Device × SensorTypeItem)
  | [] => []
  | st :: rest =>
    if supportsModel d st then (loc, d, st) :: sensorsForDevice loc d rest
    else sensorsForDevice loc d rest

/-- Device loop of sensor `async_setup_entry` (lines 83–90): only online
devices contribute. -/
def sensorsForDevices (loc : Location) :
    List Device → List (Location × Device × SensorTypeItem)
  | [] => []
  | d :: rest =>
    (if d.is_online = true then sensorsForDevice loc d SENSOR_TYPES else [])
      ++ sensorsForDevices loc rest

/-- Location loop of sensor `async_setup_entry` over
`coordinator.data["locations"].values()`. -/
def sensorsForLocations :
    List (String × Location) → List (Location × Device × SensorTypeItem)
  | [] => []
  | (_, loc) :: rest => sensorsForDevices loc loc.devices ++ sensorsForLocations rest

/-- Sensor `async_setup_entry` (sensor.py lines 71–92), as the list of
constructed sensor entities. -/
def setup_sensors (snap : Snapshot) : List (Location × Device × SensorTypeItem) :=
  sensorsForLocations snap.locations

/-- All devices of the snapshot, in location order (for counting). -/
def allDevices : List (String × Location) → List Device
  | [] => []
  | (_, loc) :: rest => loc.devices ++ allDevices rest

/-! ## Derived notions used in the statements -/

/-- The entry held in `_last_event` after a non-aborted
`_check_for_new_image` pass, given that `e` heads the snapshot's entry
list: the previously held entry when its id already matches `e`'s
(the source keeps the stale object then), otherwise `e`. -/
def retainedEntry (s : CameraState) (e : Entry) : Entry :=
  match s.lastEvent with
  | some le => if le.entry_id ≠ e.entry_id then e else le
  | none => e

/-- First thumbnail URL of an entry, absent when it has none
(`entry.thumbnails[0].image_url` with the `IndexError` caught). -/
def headThumbUrl (e : Entry) : Option String :=
  match e.thumbnails with
  | [] => none
  | t :: _ => some t.image_url

/-! ## Sample data used by the concrete witnesses -/

/-- An online Canary Pro device. -/
def sampleDevice : Device := ⟨1, "front door", true, [("name", CANARY_PRO)]⟩

/-- An offline Canary Pro device. -/
def sampleOffline : Device := ⟨2, "garage", false, [("name", CANARY_PRO)]⟩

/-- A location owning the two sample devices, recording mode off. -/
def sampleLocation : Location := ⟨"Home", false, [sampleDevice, sampleOffline]⟩

/-- An entry with id 2 and one thumbnail. -/
def sampleEntry : Entry := ⟨2, 5, [⟨"http://thumb/new"⟩]⟩

/-- An air-quality sensor over device 1, built from the air-quality row of
`SENSOR_TYPES`. -/
def sampleAqSensor : CanarySensor :=
  ⟨⟨"air_quality", none, some "mdi:weather-windy", none, [CANARY_PRO]⟩, 1⟩

/-- An entries-captured-today sensor over device 1. -/
def sampleEctSensor : CanarySensor :=
  ⟨⟨"entries_captured_today", none, some "mdi:file-video", none,
    [CANARY_PRO, CANARY_FLEX, CANARY_VIEW]⟩, 1⟩

/-- A last-entry-date sensor over device 1. -/
def sampleLedSensor : CanarySensor :=
  ⟨⟨"last_entry_date", none, some "mdi:run-fast", some "timestamp",
    [CANARY_PRO, CANARY_FLEX]⟩, 1⟩

/-- A temperature sensor over device 1. -/
def sampleTempSensor : CanarySensor :=
  ⟨⟨"temperature", some TEMP_CELSIUS, none, some "temperature", [CANARY_PRO]⟩, 1⟩

/-- The empty snapshot: every lookup misses. -/
def emptySnap : Snapshot := ⟨[], [], []⟩

/-- Snapshot in which device 1 has one entry (`sampleEntry`). -/
def snapWithEntry : Snapshot := ⟨[("L1", sampleLocation)], [(1, [sampleEntry])], []⟩

/-- Camera session state holding a cached image for entry 1 with its URL. -/
def stateCached : CameraState :=
  { image := some [7, 7], lastEvent := some ⟨1, 0, [⟨"http://thumb/old"⟩]⟩,
    lastImageId := some 1, imageUrl := some "http://thumb/old",
    liveStreamUrl := none, lastRenewTime := none }

/-- Snapshot in which device 1 has a single air-quality reading of `v`. -/
def snapAq (v : ℚ) : Snapshot := ⟨[], [], [(1, [⟨.AIR_QUALITY, v⟩])]⟩

/-- Snapshot in which device 1 has three entries, the most recent starting
at time 1. -/
def snapThreeEntries : Snapshot :=
  ⟨[], [(1, [⟨10, 1, []⟩, ⟨11, 2, []⟩, ⟨12, 3, []⟩])], []⟩

/-- Snapshot in which device 1 has a temperature reading of 21.95. -/
def snapTemp : Snapshot := ⟨[], [], [(1, [⟨.TEMPERATURE, Rat.divInt 2195 100⟩])]⟩

/-- Setup snapshot: one location owning one online and one offline device. -/
def snapSetup : Snapshot := ⟨[("L1", sampleLocation)], [], []⟩

/-- The battery row of `SENSOR_TYPES` (supported on Canary Flex only). -/
def sampleBatteryRow : SensorTypeItem :=
  ⟨"battery", some PERCENTAGE, none, some "battery", [CANARY_FLEX]⟩

/-! ## Shared lemmas -/

/-- `ratLe` is exactly `≤` on `ℚ`. -/
theorem ratLe_iff (a b : ℚ) : ratLe a b = true ↔ a ≤ b := by
  simp [ratLe, Rat.le_def]

/-- Characterization of a non-aborted, non-raising `_check_for_new_image`
pass: when the device's entry list is nonempty with head `e`, the state
keeps/installs `retainedEntry s e` as the last event, clears the image
exactly when `_last_image_id` differs from that entry's id, and re-derives
the image URL from that entry's first thumbnail. -/
theorem check_for_new_image_ok (snap : Snapshot) (did : Nat) (s : CameraState)
    (e : Entry) (rest : List Entry)
    (h : alookup did snap.entries = some (e :: rest)) :
    check_for_new_image snap did s =
      .ok { s with lastEvent := some (retainedEntry s e),
                   image := if s.lastImageId ≠ some (retainedEntry s e).entry_id then none
                            else s.image,
                   imageUrl := headThumbUrl (retainedEntry s e) } := by
  obtain ⟨img, lev, lid, iurl, lurl, lrt⟩ := s
  cases lev with
  | none =>
    simp only [check_for_new_image, h, retainedEntry, finishImageState, headThumbUrl]
    split_ifs <;> rfl
  | some le =>
    simp only [check_for_new_image, h, retainedEntry, finishImageState, headThumbUrl]
    split_ifs <;> rfl

/-- A missing device key in the entries map aborts `_check_for_new_image`
silently, leaving the state unchanged. -/
theorem check_for_new_image_miss (snap : Snapshot) (did : Nat) (s : CameraState)
    (h : alookup did snap.entries = none) :
    check_for_new_image snap did s = .ok s := by
  cases hle : s.lastEvent <;> simp [check_for_new_image, h, hle]

/-- A failing HTTP fetch leaves the whole camera state untouched. -/
theorem fetch_step_failure (fetch : String → FetchResult) (s : CameraState)
    (h : ∀ url, (fetch url).isFailure = true) :
    fetch_step fetch s = s := by
  obtain ⟨img, lev, lid, iurl, lurl, lrt⟩ := s
  cases iurl with
  | none => rfl
  | some url =>
    simp only [fetch_step]
    split_ifs with hc
    · have hfail := h url
      cases hf : fetch url with
      | success b => rw [hf] at hfail; simp [FetchResult.isFailure] at hfail
      | timeout => rfl
      | requestError => rfl
      | statusError => rfl
    · rfl

/-- A successful HTTP fetch stores the bytes and keys them to the id of the
entry currently held in `_last_event`. -/
theorem fetch_step_success (fetch : String → FetchResult) (s : CameraState)
    (url : String) (b : List Nat)
    (hurl : s.imageUrl = some url) (hne : url.isEmpty = false)
    (himg : s.image = none) (hf : fetch url = .success b) :
    fetch_step fetch s =
      { s with image := some b, lastImageId := s.lastEvent.map Entry.entry_id } := by
  obtain ⟨img, lev, lid, iurl, lurl, lrt⟩ := s
  simp only at hurl himg
  subst hurl himg
  simp only [fetch_step]
  split_ifs with hc
  · rw [hf]
  · simp [hne] at hc

/-- Session renewal never touches the image fields: only
`_live_stream_url` and the throttle clock can change. -/
theorem renew_preserves_image (sessionUrl : Option String) (now : Nat)
    (s : CameraState) :
    ((renew_live_stream_session sessionUrl now s).1.image = s.image
      ∧ (renew_live_stream_session sessionUrl now s).1.imageUrl = s.imageUrl
      ∧ (renew_live_stream_session sessionUrl now s).1.lastImageId = s.lastImageId
      ∧ (renew_live_stream_session sessionUrl now s).1.lastEvent = s.lastEvent) := by
  unfold renew_live_stream_session
  split_ifs <;> exact ⟨rfl, rfl, rfl, rfl⟩

/-! ## Claim C1 -/

/-- **C1** (counterexample). The claim says every lookup miss — including an
index past the end of an entry list — is absorbed by the camera's
image-state update. It is false: with the device key present but its entry
list empty, `_check_for_new_image` evaluates `entries[device_id][0]` inside
a `try` that catches only `KeyError`, so the `IndexError` escapes. -/
theorem lookup_miss_counterexample :
    check_for_new_image { locations := [], entries := [(1, [])], readings := [] } 1
      CameraState.init = .error .indexError := rfl

/-- **C1** (amended): every lookup miss is absorbed and yields an absent
value — a missing device key in the camera's image-state update (state
unchanged), an empty thumbnail list (absent image URL), a missing device
key in the sensor's reading/value accessors (absent value) — **except**
that an entry list that is present but empty makes the camera's
image-state update raise an uncaught `IndexError`. -/
theorem lookup_miss_absorbed (snap : Snapshot) (did : Nat) (s : CameraState)
    (sen : CanarySensor) :
    (alookup did snap.entries = none → check_for_new_image snap did s = .ok s)
    ∧ (∀ e rest, alookup did snap.entries = some (e :: rest) →
        ∃ s', check_for_new_image snap did s = .ok s')
    ∧ (∀ e rest, alookup did snap.entries = some (e :: rest) →
        (retainedEntry s e).thumbnails = [] →
        ∃ s', check_for_new_image snap did s = .ok s' ∧ s'.imageUrl = none)
    ∧ (alookup sen.device_id snap.readings = none → sen.reading snap = none)
    ∧ (alookup sen.device_id snap.readings = none →
        canary_data_type sen.sensor_type.type_name = some "reading" →
        sen.native_value snap = none)
    ∧ (alookup sen.device_id snap.entries = none →
        canary_data_type sen.sensor_type.type_name = some "entry" →
        sen.native_value snap = none) := by
  refine ⟨check_for_new_image_miss snap did s, ?_, ?_, ?_, ?_, ?_⟩
  · intro e rest h
    exact ⟨_, check_for_new_image_ok snap did s e rest h⟩
  · intro e rest h hthumb
    refine ⟨_, check_for_new_image_ok snap did s e rest h, ?_⟩
    simp [headThumbUrl, hthumb]
  · intro h
    simp [CanarySensor.reading, h]
  · intro h hdt
    simp [CanarySensor.native_value, hdt, CanarySensor.reading, h]
  · intro h hdt
    rw [CanarySensor.native_value, hdt]
    simp [h]

/-- **C1** witness: the amended theorem applied at concrete inputs — the
empty snapshot's lookups all miss and are absorbed. -/
theorem lookup_miss_absorbed_witness :
    check_for_new_image emptySnap 1 CameraState.init = .ok CameraState.init
    ∧ sampleTempSensor.reading emptySnap = none
    ∧ sampleEctSensor.native_value emptySnap = none :=
  ⟨(lookup_miss_absorbed emptySnap 1 CameraState.init sampleTempSensor).1 rfl,
   (lookup_miss_absorbed emptySnap 1 CameraState.init sampleTempSensor).2.2.2.1 rfl,
   (lookup_miss_absorbed emptySnap 1 CameraState.init sampleEctSensor).2.2.2.2.2 rfl rfl⟩

/-! ## Claim C2 -/

/-- **C2** (counterexample). The claim says that when the most-recent
entry's id differs from the id that produced the cached image, *both* the
cached image bytes *and* the cached image URL are cleared. In the code only
the bytes are cleared; `_image_url` is immediately re-derived from the new
entry's first thumbnail, so after the update it is `some "http://thumb/new"`,
not absent: here the cached image for entry 1 meets a snapshot whose most
recent entry has id 2. -/
theorem cache_invalidation_counterexample :
    (check_for_new_image snapWithEntry 1 stateCached).map
      (fun s => (s.image, s.imageUrl)) = .ok (none, some "http://thumb/new") := rfl

/-- **C2** (amended): on every still-image request the camera re-derives
the most recent entry for its device; if that entry's id differs from the
id that produced the cached image (or none was recorded), the cached image
bytes are cleared, while the cached image URL is re-derived from that
entry's first thumbnail (absent only when it has no thumbnails), so a
re-fetch occurs; if the device is missing from the snapshot's entry map the
session state is left unchanged and the update aborts silently; a
successful fetch caches the bytes keyed to that entry's id. -/
theorem cache_invalidation (snap : Snapshot) (did : Nat) (s : CameraState)
    (fetch : String → FetchResult) :
    (alookup did snap.entries = none → check_for_new_image snap did s = .ok s)
    ∧ (∀ e rest, alookup did snap.entries = some (e :: rest) →
        check_for_new_image snap did s =
          .ok { s with lastEvent := some (retainedEntry s e),
                       image := if s.lastImageId ≠ some (retainedEntry s e).entry_id
                                then none else s.image,
                       imageUrl := headThumbUrl (retainedEntry s e) })
    ∧ (∀ url b, s.imageUrl = some url → url.isEmpty = false → s.image = none →
        fetch url = .success b →
        fetch_step fetch s =
          { s with image := some b, lastImageId := s.lastEvent.map Entry.entry_id }) :=
  ⟨check_for_new_image_miss snap did s,
   fun e rest h => check_for_new_image_ok snap did s e rest h,
   fun url b hurl hne himg hf => fetch_step_success fetch s url b hurl hne himg hf⟩

/-- **C2** witness: at the concrete cached state and snapshot of the
counterexample the amended theorem computes the invalidated state, and a
successful fetch on a fresh state caches the bytes keyed to entry id 2. -/
theorem cache_invalidation_witness :
    check_for_new_image snapWithEntry 1 stateCached =
      .ok ⟨none, some sampleEntry, some 1, some "http://thumb/new", none, none⟩
    ∧ fetch_step (fun _ => .success [9])
        ⟨none, some sampleEntry, none, some "http://thumb/new", none, none⟩ =
      ⟨some [9], some sampleEntry, some 2, some "http://thumb/new", none, none⟩ :=
  ⟨((cache_invalidation snapWithEntry 1 stateCached
      (fun _ => .success [9])).2.1 sampleEntry [] rfl).trans rfl,
   ((cache_invalidation snapWithEntry 1
      ⟨none, some sampleEntry, none, some "http://thumb/new", none, none⟩
      (fun _ => .success [9])).2.2 "http://thumb/new" [9] rfl rfl rfl rfl).trans rfl⟩

/-! ## Claim C3 -/

/-- **C3** (confirmed): for the air-quality metric only, with a present
reading, the extra attributes are exactly the one band computed from the
rounded reading — `very_abnormal` when it is ≤ 0.40, `abnormal` when it is
≤ 0.59, `normal` when it is > 0.59 — and no attribute is exposed for other
metrics or an absent reading. Comparisons are phrased with the computable
`ratLe`, which equals `≤` by `ratLe_iff`; the first conjunct identifies the
threshold constants with the spec's decimals 0.40 and 0.59. -/
theorem air_quality_bands (snap : Snapshot) (s : CanarySensor) :
    ((Rat.divInt 4 10 : ℚ) = 0.4 ∧ (Rat.divInt 59 100 : ℚ) = 0.59)
    ∧ (s.sensor_type.type_name ≠ "air_quality" →
        s.extra_state_attributes snap = none)
    ∧ (s.sensor_type.type_name = "air_quality" → s.reading snap = none →
        s.extra_state_attributes snap = none)
    ∧ (∀ r, s.sensor_type.type_name = "air_quality" → s.reading snap = some r →
        ((ratLe r (Rat.divInt 4 10) = true →
            s.extra_state_attributes snap =
              some [(ATTR_AIR_QUALITY, STATE_AIR_QUALITY_VERY_ABNORMAL)])
         ∧ (ratLe r (Rat.divInt 4 10) = false → ratLe r (Rat.divInt 59 100) = true →
            s.extra_state_attributes snap =
              some [(ATTR_AIR_QUALITY, STATE_AIR_QUALITY_ABNORMAL)])
         ∧ (ratLe r (Rat.divInt 59 100) = false →
            s.extra_state_attributes snap =
              some [(ATTR_AIR_QUALITY, STATE_AIR_QUALITY_NORMAL)]))) := by
  refine ⟨⟨by norm_num [Rat.divInt], by norm_num [Rat.divInt]⟩, ?_, ?_, ?_⟩
  · intro h
    simp [CanarySensor.extra_state_attributes, h]
  · intro h hr
    simp [CanarySensor.extra_state_attributes, h, hr]
  · intro r h hr
    refine ⟨?_, ?_, ?_⟩
    · intro h1
      simp [CanarySensor.extra_state_attributes, h, hr, h1]
    · intro h1 h2
      simp [CanarySensor.extra_state_attributes, h, hr, h1, h2]
    · intro h2
      have h1 : ratLe r (Rat.divInt 4 10) = false := by
        rw [Bool.eq_false_iff]
        intro hc
        rw [Bool.eq_false_iff] at h2
        exact h2 ((ratLe_iff _ _).mpr (le_trans ((ratLe_iff _ _).mp hc)
          (by norm_num [Rat.divInt])))
      simp [CanarySensor.extra_state_attributes, h, hr, h1, h2]

/-- **C3** witness: readings 0.35, 0.5 and 0.8 classify as `very_abnormal`,
`abnormal` and `normal`; an absent reading exposes no attribute. -/
theorem air_quality_bands_witness :
    sampleAqSensor.extra_state_attributes (snapAq (Rat.divInt 35 100)) =
      some [(ATTR_AIR_QUALITY, STATE_AIR_QUALITY_VERY_ABNORMAL)]
    ∧ sampleAqSensor.extra_state_attributes (snapAq (Rat.divInt 1 2)) =
      some [(ATTR_AIR_QUALITY, STATE_AIR_QUALITY_ABNORMAL)]
    ∧ sampleAqSensor.extra_state_attributes (snapAq (Rat.divInt 8 10)) =
      some [(ATTR_AIR_QUALITY, STATE_AIR_QUALITY_NORMAL)]
    ∧ sampleAqSensor.extra_state_attributes emptySnap = none :=
  ⟨((air_quality_bands (snapAq (Rat.divInt 35 100)) sampleAqSensor).2.2.2
      (Rat.divInt 35 100) rfl rfl).1 rfl,
   ((air_quality_bands (snapAq (Rat.divInt 1 2)) sampleAqSensor).2.2.2
      (Rat.divInt 1 2) rfl rfl).2.1 rfl rfl,
   ((air_quality_bands (snapAq (Rat.divInt 8 10)) sampleAqSensor).2.2.2
      (Rat.divInt 8 10) rfl rfl).2.2 rfl,
   (air_quality_bands emptySnap sampleAqSensor).2.2.1 rfl rfl⟩

/-! ## Claim C4 -/

/-- **C4** (confirmed): for an `entries_captured_today` sensor the value is
the length of the device's entry list (0 for the empty list), absent when
the device key is missing; for a `last_entry_date` sensor it is the start
time of the first (most recent) entry, absent when the list is empty or the
key is missing. -/
theorem entry_sensor_values (snap : Snapshot) (s : CanarySensor) :
    (s.sensor_type.type_name = "entries_captured_today" →
      (alookup s.device_id snap.entries = none → s.native_value snap = none)
      ∧ (∀ l, alookup s.device_id snap.entries = some l →
          s.native_value snap = some (.count l.length)))
    ∧ (s.sensor_type.type_name = "last_entry_date" →
      (alookup s.device_id snap.entries = none → s.native_value snap = none)
      ∧ (alookup s.device_id snap.entries = some [] → s.native_value snap = none)
      ∧ (∀ e rest, alookup s.device_id snap.entries = some (e :: rest) →
          s.native_value snap = some (.date e.start_time))) := by
  constructor
  · intro h
    constructor
    · intro hl
      simp [CanarySensor.native_value, h, canary_data_type, hl]
    · intro l hl
      simp [CanarySensor.native_value, h, canary_data_type, hl]
  · intro h
    refine ⟨?_, ?_, ?_⟩
    · intro hl
      simp [CanarySensor.native_value, h, canary_data_type, hl]
    · intro hl
      simp [CanarySensor.native_value, h, canary_data_type, hl]
    · intro e rest hl
      simp [CanarySensor.native_value, h, canary_data_type, hl]

/-- **C4** witness: with three entries the count sensor reads 3 and the
date sensor reads the first entry's start time; with the device key absent
both read nothing. -/
theorem entry_sensor_values_witness :
    sampleEctSensor.native_value snapThreeEntries = some (.count 3)
    ∧ sampleLedSensor.native_value snapThreeEntries = some (.date 1)
    ∧ sampleEctSensor.native_value emptySnap = none
    ∧ sampleLedSensor.native_value emptySnap = none :=
  ⟨(((entry_sensor_values snapThreeEntries sampleEctSensor).1 rfl).2
      [⟨10, 1, []⟩, ⟨11, 2, []⟩, ⟨12, 3, []⟩] rfl).trans rfl,
   ((entry_sensor_values snapThreeEntries sampleLedSensor).2 rfl).2.2
      ⟨10, 1, []⟩ [⟨11, 2, []⟩, ⟨12, 3, []⟩] rfl,
   ((entry_sensor_values emptySnap sampleEctSensor).1 rfl).1 rfl,
   ((entry_sensor_values emptySnap sampleLedSensor).2 rfl).1 rfl⟩

/-! ## Claim C5 -/

/-- **C5** (confirmed): for each of the five reading metrics the sensor's
value is the value of the first reading in the device's list whose kind
matches the sensor's metric, rounded to 2 decimal places, and absent when
the device has no reading list or no reading of that kind exists (the
`find?`/`Option.map` on the right is exactly "first match, rounded, else
nothing"). -/
theorem reading_sensor_values (snap : Snapshot) (s : CanarySensor)
    (hname : s.sensor_type.type_name ∈
      ["temperature", "humidity", "air_quality", "wifi", "battery"]) :
    (alookup s.device_id snap.readings = none → s.native_value snap = none)
    ∧ (∀ rl, alookup s.device_id snap.readings = some rl →
        s.native_value snap =
          (rl.find? (fun r =>
              decide (canary_sensor_type s.sensor_type.type_name = some r.sensor_type))).map
            (fun r => NValue.reading (round_value r.value))) := by
  have hdt : canary_data_type s.sensor_type.type_name = some "reading" := by
    simp only [List.mem_cons, List.not_mem_nil, or_false] at hname
    rcases hname with h | h | h | h | h <;> rw [h] <;> decide
  constructor
  · intro h
    simp [CanarySensor.native_value, hdt, CanarySensor.reading, h]
  · intro rl h
    simp only [CanarySensor.native_value, hdt, reduceIte, CanarySensor.reading, h]
    cases hf : rl.find? (fun r =>
        decide (canary_sensor_type s.sensor_type.type_name = some r.sensor_type)) <;>
      simp [hf]

/-- **C5** witness: a temperature reading of 21.95 is returned as-is
(rounding is the identity here); with no reading list the value is absent. -/
theorem reading_sensor_values_witness :
    sampleTempSensor.native_value snapTemp = some (.reading (Rat.divInt 2195 100))
    ∧ sampleTempSensor.native_value emptySnap = none :=
  ⟨((reading_sensor_values snapTemp sampleTempSensor (by decide)).2
      [⟨.TEMPERATURE, Rat.divInt 2195 100⟩] rfl).trans rfl,
   (reading_sensor_values emptySnap sampleTempSensor (by decide)).1 rfl⟩

/-! ## Claim C6 -/

/-- Camera count per device over one location's device list. -/
theorem countP_camerasForDevices (lid : String) (dev : Device) (ds : List Device) :
    (camerasForDevices lid ds).countP (fun p => decide (p.2 = dev))
      = ds.countP (fun d => decide (d = dev) && d.is_online) := by
  induction ds with
  | nil => rfl
  | cons d rest ih =>
    simp only [camerasForDevices]
    cases hon : d.is_online with
    | true =>
      rw [if_pos rfl, List.countP_cons, List.countP_cons, ih]
      simp [hon]
    | false =>
      rw [if_neg (by simp), ih, List.countP_cons]
      simp [hon]

/-- Camera count per device over the whole snapshot. -/
theorem countP_camerasForLocations (dev : Device) (ls : List (String × Location)) :
    (camerasForLocations ls).countP (fun p => decide (p.2 = dev))
      = (allDevices ls).countP (fun d => decide (d = dev) && d.is_online) := by
  induction ls with
  | nil => rfl
  | cons l rest ih =>
    obtain ⟨lid, loc⟩ := l
    simp only [camerasForLocations, allDevices, List.countP_append, ih,
      countP_camerasForDevices]

/-- Sensor count for one `(device, sensor-type)` pair over the rows kept
for one device. -/
theorem countP_sensorsForDevice (loc : Location) (d dev : Device)
    (st : SensorTypeItem) (l : List SensorTypeItem) :
    (sensorsForDevice loc d l).countP (fun t => decide (t.2.1 = dev ∧ t.2.2 = st))
      = if d = dev then l.countP (fun x => decide (x = st) && supportsModel d x)
        else 0 := by
  induction l with
  | nil => simp [sensorsForDevice]
  | cons st' rest ih =>
    simp only [sensorsForDevice]
    cases hsup : supportsModel d st' with
    | true =>
      rw [if_pos rfl, List.countP_cons, ih]
      by_cases hd : d = dev
      · subst hd
        by_cases hst : st' = st
        · subst hst
          simp [List.countP_cons, hsup]
        · simp [List.countP_cons, hst]
      · simp [List.countP_cons, hd]
    | false =>
      rw [if_neg (by simp), ih]
      by_cases hd : d = dev
      · subst hd
        simp [List.countP_cons, hsup]
      · simp [hd]

/-- Sensor count for one `(device, sensor-type)` pair over a device list. -/
theorem countP_sensorsForDevices (loc : Location) (dev : Device)
    (st : SensorTypeItem) (ds : List Device) :
    (sensorsForDevices loc ds).countP (fun t => decide (t.2.1 = dev ∧ t.2.2 = st))
      = ds.countP (fun d => decide (d = dev) && d.is_online)
          * SENSOR_TYPES.countP (fun x => decide (x = st) && supportsModel dev x) := by
  induction ds with
  | nil => simp [sensorsForDevices]
  | cons d rest ih =>
    simp only [sensorsForDevices, List.countP_append, ih]
    cases hon : d.is_online with
    | true =>
      rw [if_pos rfl, countP_sensorsForDevice]
      by_cases hd : d = dev
      · subst hd
        rw [if_pos rfl, List.countP_cons]
        simp only [hon, decide_True, Bool.true_and, if_true]
        ring
      · rw [if_neg hd, List.countP_cons]
        simp [hd]
    | false =>
      rw [if_neg (by simp), List.countP_cons]
      simp [hon]

/-- Sensor count for one `(device, sensor-type)` pair over the whole
snapshot. -/
theorem countP_sensorsForLocations (dev : Device) (st : SensorTypeItem)
    (ls : List (String × Location)) :
    (sensorsForLocations ls).countP (fun t => decide (t.2.1 = dev ∧ t.2.2 = st))
      = (allDevices ls).countP (fun d => decide (d = dev) && d.is_online)
          * SENSOR_TYPES.countP (fun x => decide (x = st) && supportsModel dev x) := by
  induction ls with
  | nil => simp [sensorsForLocations, allDevices]
  | cons l rest ih =>
    obtain ⟨lid, loc⟩ := l
    simp only [sensorsForLocations, allDevices, List.countP_append, ih,
      countP_sensorsForDevices]
    ring

/-- **C6** (confirmed): setup creates exactly one camera per occurrence of
an online device (none for offline ones: the count of cameras for a device
equals the count of its online occurrences in the snapshot), and exactly
one sensor per (online device occurrence, supported sensor-type row); a
device whose product-model name is not in a row's supported-models list
never yields a sensor for that row. -/
theorem setup_entities (snap : Snapshot) (dev : Device) (st : SensorTypeItem) :
    ((setup_cameras snap).countP (fun p => decide (p.2 = dev))
        = (allDevices snap.locations).countP (fun d => decide (d = dev) && d.is_online))
    ∧ ((setup_sensors snap).countP (fun t => decide (t.2.1 = dev ∧ t.2.2 = st))
        = (allDevices snap.locations).countP (fun d => decide (d = dev) && d.is_online)
            * SENSOR_TYPES.countP (fun x => decide (x = st) && supportsModel dev x))
    ∧ (supportsModel dev st = false →
        (setup_sensors snap).countP (fun t => decide (t.2.1 = dev ∧ t.2.2 = st)) = 0) := by
  refine ⟨countP_camerasForLocations dev snap.locations,
    countP_sensorsForLocations dev st snap.locations, ?_⟩
  intro hsup
  rw [setup_sensors, countP_sensorsForLocations]
  have hz : SENSOR_TYPES.countP (fun x => decide (x = st) && supportsModel dev x) = 0 := by
    rw [List.countP_eq_zero]
    intro x hx
    by_cases hxs : x = st
    · subst hxs
      simp [hsup]
    · simp [hxs]
  rw [hz, Nat.mul_zero]

/-- **C6** witness: in the sample snapshot the online Canary Pro yields
exactly one camera and one air-quality sensor, the offline device yields no
camera, and the battery row (Canary Flex only) yields no sensor for the
Canary Pro. -/
theorem setup_entities_witness :
    (setup_cameras snapSetup).countP (fun p => decide (p.2 = sampleDevice)) = 1
    ∧ (setup_cameras snapSetup).countP (fun p => decide (p.2 = sampleOffline)) = 0
    ∧ (setup_sensors snapSetup).countP
        (fun t => decide (t.2.1 = sampleDevice ∧ t.2.2 = sampleAqSensor.sensor_type)) = 1
    ∧ (setup_sensors snapSetup).countP
        (fun t => decide (t.2.1 = sampleDevice ∧ t.2.2 = sampleBatteryRow)) = 0 :=
  ⟨(setup_entities snapSetup sampleDevice sampleBatteryRow).1.trans (by decide),
   (setup_entities snapSetup sampleOffline sampleBatteryRow).1.trans (by decide),
   (setup_entities snapSetup sampleDevice sampleAqSensor.sensor_type).2.1.trans (by decide),
   (setup_entities snapSetup sampleDevice sampleBatteryRow).2.2 (by decide)⟩

/-! ## Claim C7 -/

/-- **C7** (confirmed): when the HTTP fetch of the thumbnail fails (timeout,
request error or status error), the still-image request does not raise and
falls through to the live-view strategy (its result is exactly the
live-view step applied to the post-update state); if the (throttled)
renewal leaves no truthy live-stream URL, or the URL is there but the
ffmpeg still-extraction yields nothing, the request returns a null image. -/
theorem fetch_error_falls_through (snap : Snapshot) (did : Nat)
    (fetch : String → FetchResult) (sessionUrl : Option String)
    (liveImage : String → Option (List Nat)) (now : Nat) (s s₁ : CameraState)
    (url : String)
    (hchk : check_for_new_image snap did s = .ok s₁)
    (himg : s₁.image = none) (hurl : s₁.imageUrl = some url)
    (hne : url.isEmpty = false) (hfail : (fetch url).isFailure = true) :
    async_camera_image snap did fetch sessionUrl liveImage now s =
      .ok (live_view_step sessionUrl liveImage now s₁)
    ∧ (truthyStr ((renew_live_stream_session sessionUrl now s₁).1.liveStreamUrl) = false →
        (live_view_step sessionUrl liveImage now s₁).1 = none)
    ∧ (∀ u, (renew_live_stream_session sessionUrl now s₁).1.liveStreamUrl = some u →
        liveImage u = none → (live_view_step sessionUrl liveImage now s₁).1 = none) := by
  obtain ⟨img, lev, lid, iurl, lurl, lrt⟩ := s₁
  simp only at himg hurl
  subst himg hurl
  have hfs : fetch_step fetch ⟨none, lev, lid, some url, lurl, lrt⟩ =
      ⟨none, lev, lid, some url, lurl, lrt⟩ := by
    simp only [fetch_step]
    split_ifs with hc
    · cases hf : fetch url with
      | success b => rw [hf] at hfail; simp [FetchResult.isFailure] at hfail
      | timeout => rfl
      | requestError => rfl
      | statusError => rfl
    · rfl
  refine ⟨?_, ?_, ?_⟩
  · simp only [async_camera_image, hchk, hfs]
    rw [if_pos trivial]
  · intro h
    simp [live_view_step, h]
  · intro u hu hlive
    have himg3 := (renew_preserves_image sessionUrl now
      ⟨none, lev, lid, some url, lurl, lrt⟩).1
    simp only [live_view_step]
    cases htr : truthyStr ((renew_live_stream_session sessionUrl now
        ⟨none, lev, lid, some url, lurl, lrt⟩).1.liveStreamUrl) with
    | false => simp [htr]
    | true =>
      rw [if_neg (by simp [htr])]
      simp [hu, hlive, himg3]

/-- **C7** witness: a timing-out fetch on the fresh camera with a vendor
session that has no URL falls through and returns a null image. -/
theorem fetch_error_falls_through_witness :
    async_camera_image snapWithEntry 1 (fun _ => .timeout) none (fun _ => none) 0
      CameraState.init =
      .ok (none, ⟨none, some sampleEntry, none, some "http://thumb/new", none, some 0⟩) :=
  ((fetch_error_falls_through snapWithEntry 1 (fun _ => .timeout) none (fun _ => none) 0
      CameraState.init ⟨none, some sampleEntry, none, some "http://thumb/new", none, none⟩
      "http://thumb/new" rfl rfl rfl rfl rfl).1).trans rfl

/-! ## Claim C8 -/

/-- **C8** (confirmed; the `Throttle` decorator is modelled from the spec as
a time-since-last-call gate): starting from a camera that has never
renewed, a first renewal at `t₁` executes the vendor call and stores the
session's stream URL; a second call at `t₂` less than 90 seconds later does
not execute the vendor call and leaves the stored state unchanged — the
underlying call runs exactly once. -/
theorem renewal_throttled (s : CameraState) (u₁ u₂ : Option String) (t₁ t₂ : Nat)
    (hfresh : s.lastRenewTime = none) (h12 : t₁ ≤ t₂)
    (hlt : t₂ - t₁ < MIN_TIME_BETWEEN_SESSION_RENEW) :
    (renew_live_stream_session u₁ t₁ s).2 = true
    ∧ (renew_live_stream_session u₁ t₁ s).1.liveStreamUrl = u₁
    ∧ (renew_live_stream_session u₂ t₂ (renew_live_stream_session u₁ t₁ s).1).2 = false
    ∧ (renew_live_stream_session u₂ t₂ (renew_live_stream_session u₁ t₁ s).1).1
        = (renew_live_stream_session u₁ t₁ s).1 := by
  have h1 : renew_live_stream_session u₁ t₁ s =
      ({ s with liveStreamUrl := u₁, lastRenewTime := some t₁ }, true) := by
    unfold renew_live_stream_session
    rw [if_neg (by simp [throttled, hfresh])]
  have h2 : throttled MIN_TIME_BETWEEN_SESSION_RENEW t₂ (some t₁) = true := by
    simp [throttled, hlt]
  refine ⟨by rw [h1], by rw [h1], ?_, ?_⟩ <;>
    · rw [h1]
      unfold renew_live_stream_session
      rw [if_pos (by simp [h2])]

/-- **C8** witness: renewals at times 100 and 150 (50 seconds apart)
execute the vendor call once: the first stores the URL, the second is a
no-op. -/
theorem renewal_throttled_witness :
    (renew_live_stream_session (some "rtsp://a") 100 CameraState.init).2 = true
    ∧ (renew_live_stream_session (some "rtsp://a") 100 CameraState.init).1.liveStreamUrl
        = some "rtsp://a"
    ∧ (renew_live_stream_session (some "rtsp://b") 150
        (renew_live_stream_session (some "rtsp://a") 100 CameraState.init).1).2 = false
    ∧ (renew_live_stream_session (some "rtsp://b") 150
        (renew_live_stream_session (some "rtsp://a") 100 CameraState.init).1).1
        = (renew_live_stream_session (some "rtsp://a") 100 CameraState.init).1 :=
  ⟨(renewal_throttled CameraState.init (some "rtsp://a") (some "rtsp://b") 100 150 rfl
      (by decide) (by decide)).1,
   (renewal_throttled CameraState.init (some "rtsp://a") (some "rtsp://b") 100 150 rfl
      (by decide) (by decide)).2.1,
   (renewal_throttled CameraState.init (some "rtsp://a") (some "rtsp://b") 100 150 rfl
      (by decide) (by decide)).2.2.1,
   (renewal_throttled CameraState.init (some "rtsp://a") (some "rtsp://b") 100 150 rfl
      (by decide) (by decide)).2.2.2⟩

/-! ## Claim C9 -/

/-- **C9** (confirmed): the MJPEG handler returns no response whenever the
(throttled) renewal leaves no truthy live-stream URL — with no transcoding
process touched — and on every execution where the transcoding process is
opened it is also closed, whether the proxying returns normally or raises
(the `finally` clause). -/
theorem mjpeg_stream_spec (openR : Except PyError Unit) (proxy : Except PyError Nat)
    (sessionUrl : Option String) (now : Nat) (s : CameraState) :
    (truthyStr ((renew_live_stream_session sessionUrl now s).1.liveStreamUrl) = false →
      handle_async_mjpeg_stream openR proxy sessionUrl now s
        = (.ok none, (renew_live_stream_session sessionUrl now s).1, false, false))
    ∧ ((handle_async_mjpeg_stream openR proxy sessionUrl now s).2.2.1 = true →
      (handle_async_mjpeg_stream openR proxy sessionUrl now s).2.2.2 = true) := by
  constructor
  · intro h
    simp [handle_async_mjpeg_stream, h]
  · intro h
    unfold handle_async_mjpeg_stream at h ⊢
    dsimp only at h ⊢
    split_ifs at h ⊢
    cases openR with
    | error e => simp at h
    | ok u =>
      cases proxy with
      | ok r => rfl
      | error e => rfl

/-- **C9** witness: with no session URL the handler returns no response and
never opens the process; with a URL and both process steps succeeding, the
opened process is closed. -/
theorem mjpeg_stream_witness :
    handle_async_mjpeg_stream (.ok ()) (.ok 5) none 0 CameraState.init
      = (.ok none, ⟨none, none, none, none, none, some 0⟩, false, false)
    ∧ (handle_async_mjpeg_stream (.ok ()) (.ok 5) (some "rtsp://x") 0
        CameraState.init).2.2.2 = true :=
  ⟨((mjpeg_stream_spec (.ok ()) (.ok 5) none 0 CameraState.init).1 rfl).trans rfl,
   (mjpeg_stream_spec (.ok ()) (.ok 5) (some "rtsp://x") 0 CameraState.init).2 rfl⟩

/-! ## Claim C10 -/

/-- **C10** (confirmed): within the thumbnail-fetch step, the cached image
bytes and the image-producing entry id are updated only when the fetch
succeeds; on a timeout, request error or status error the whole state —
in particular both fields — is left exactly as it was before the fetch, so
the same entry's thumbnail URL is still in place for the next request. -/
theorem fetch_updates_only_on_success (fetch : String → FetchResult)
    (s : CameraState) (url : String)
    (hurl : s.imageUrl = some url) (himg : s.image = none)
    (hne : url.isEmpty = false) :
    ((fetch url).isFailure = true → fetch_step fetch s = s)
    ∧ (∀ b, fetch url = .success b →
        fetch_step fetch s =
          { s with image := some b, lastImageId := s.lastEvent.map Entry.entry_id }) := by
  constructor
  · intro hfail
    obtain ⟨img, lev, lid, iurl, lurl, lrt⟩ := s
    simp only at himg hurl
    subst himg hurl
    simp only [fetch_step]
    split_ifs with hc
    · cases hf : fetch url with
      | success b => rw [hf] at hfail; simp [FetchResult.isFailure] at hfail
      | timeout => rfl
      | requestError => rfl
      | statusError => rfl
    · rfl
  · intro b hf
    exact fetch_step_success fetch s url b hurl hne himg hf

/-- **C10** witness: a timing-out fetch leaves the concrete state
unchanged; a successful fetch on the same state stores the bytes and keys
them to entry id 2. -/
theorem fetch_updates_only_on_success_witness :
    fetch_step (fun _ => .timeout)
      ⟨none, some sampleEntry, some 1, some "http://u", none, none⟩
      = ⟨none, some sampleEntry, some 1, some "http://u", none, none⟩
    ∧ fetch_step (fun _ => .success [3])
      ⟨none, some sampleEntry, some 1, some "http://u", none, none⟩
      = ⟨some [3], some sampleEntry, some 2, some "http://u", none, none⟩ :=
  ⟨(fetch_updates_only_on_success (fun _ => .timeout)
      ⟨none, some sampleEntry, some 1, some "http://u", none, none⟩
      "http://u" rfl rfl rfl).1 rfl,
   ((fetch_updates_only_on_success (fun _ => .success [3])
      ⟨none, some sampleEntry, some 1, some "http://u", none, none⟩
      "http://u" rfl rfl rfl).2 [3] rfl).trans rfl⟩

end Canary
